import Mathlib

/-!
Shallow embedding of the Scan Session Manager of the virtual-book-catalog
repository: the `useScanner` hook (src/src/hooks/useScanner.tsx) and the
decode-validation callback `handleDetection` of the barcode-scanner
component.

The hook is single-threaded and event-driven.  Its mutable session state
(React refs and useState cells) is embedded as the record `ScanState`; the
host platform and the decoding engine are embedded as an `Env` record that
fixes the outcome of the external calls a single operation makes
(permission prompt, device listing, decode start).  Hardware capture
streams are modelled by generation numbers: `nextGen` is the next fresh
stream generation, and `activeStreams` lists the generations that have
been acquired and whose tracks have not been stopped.  `readerStream` is
the stream currently held by the decoding engine (released by
`reader.reset()`), `streamRef` is the handle captured into `streamRef.current`
by the delayed lookup.
-/

namespace ScanSession

/-- A capture device as enumerated by the platform (`MediaDeviceInfo`):
an opaque `deviceId` and a human-readable `label` (possibly empty). -/
structure MediaDeviceInfo where
  deviceId : String
  label : String
deriving DecidableEq

/-- The session state of the `useScanner` hook: the `isScanning`, `cameras`,
`selectedCamera` and `error` useState cells, the `readerRef` ref (modelled
by `readerInit`: whether `readerRef.current` is non-null, plus
`readerStream`: the stream the reader currently holds), the `streamRef`
ref, and the stream bookkeeping (`activeStreams`, `nextGen`). -/
structure ScanState where
  isScanning : Bool
  cameras : List MediaDeviceInfo
  selectedCamera : String
  error : String
  readerInit : Bool
  readerStream : Option Nat
  streamRef : Option Nat
  activeStreams : List Nat
  nextGen : Nat
deriving DecidableEq

/-- Outcomes of the external calls one operation may make: whether
`getUserMedia` grants permission, what `listVideoInputDevices` returns,
whether it throws, and whether `decodeFromVideoDevice` throws. -/
structure Env where
  permission : Bool
  platformDevices : List MediaDeviceInfo
  listThrows : Bool
  decodeThrows : Bool
deriving DecidableEq

/-- Error message set by `getCameras` when the permission prompt is denied. -/
def errPermission : String :=
  "Camera permission denied. Please enable camera access in your browser settings."

/-- Error message set by `getCameras` when device listing throws. -/
def errAccess : String :=
  "Could not access cameras. Please check your permissions."

/-- Error message set by `startScanning` when `decodeFromVideoDevice` throws. -/
def errDecodeInit : String :=
  "Error initializing camera scanner."

/-- Whether `needle` occurs at the head of `hay` (helper for the
JavaScript `String.prototype.includes` embedding). -/
def matchesAt (needle hay : List Char) : Bool :=
  match needle, hay with
  | [], _ => true
  | _ :: _, [] => false
  | c :: cs, h :: hs => c == h && matchesAt cs hs

/-- Whether `needle` occurs somewhere in `hay`: the JavaScript
`hay.includes(needle)` on code units. -/
def charsInclude (hay needle : List Char) : Bool :=
  match hay with
  | [] => needle.isEmpty
  | _ :: hs => matchesAt needle hay || charsInclude hs needle

/-- The back-camera keyword test of `getCameras`
(useScanner.tsx lines 89-93):
`device.label?.toLowerCase().includes('back' | 'traseira' | 'rear')`.
Lowercasing is per code unit, which agrees with JavaScript on the ASCII
labels and keywords involved. -/
def isBackCamera (d : MediaDeviceInfo) : Bool :=
  let l := d.label.toList.map Char.toLower
  charsInclude l "back".toList ||
  charsInclude l "traseira".toList ||
  charsInclude l "rear".toList

/-- Effect of `readerRef.current.reset()`: when the reader exists, it stops
the decode loop and releases the stream the reader holds. -/
def resetReader (s : ScanState) : ScanState :=
  if s.readerInit then
    match s.readerStream with
    | some g =>
      { s with activeStreams := s.activeStreams.filter (fun h => h != g),
               readerStream := none }
    | none => s
  else s

/-- The `stopScanning` callback (useScanner.tsx lines 50-63): stop the
tracks of the stream held in `streamRef.current` and null the ref, reset
the reader, and clear the `isScanning` flag. -/
def stopScanning (s : ScanState) : ScanState :=
  let s1 :=
    match s.streamRef with
    | some g =>
      { s with activeStreams := s.activeStreams.filter (fun h => h != g),
               streamRef := none }
    | none => s
  { resetReader s1 with isScanning := false }

/-- The `getCameras` callback (useScanner.tsx lines 66-103).  It first
clears `error`; requests a throwaway permission stream (acquired and
immediately stopped) and on denial sets `errPermission` and returns; then
returns if the reader is missing; lists the devices (on a throw,
`errAccess`); stores them in `cameras`; and when the list is non-empty and
no camera is selected, auto-selects the first back-camera-labelled device,
falling back to the first device (also when the matched device has a falsy,
i.e. empty, `deviceId`). -/
def getCameras (s : ScanState) (env : Env) : ScanState :=
  let s0 := { s with error := "" }
  if env.permission then
    let s1 := { s0 with
      activeStreams := (s0.nextGen :: s0.activeStreams).filter (fun h => h != s0.nextGen),
      nextGen := s0.nextGen + 1 }
    if s1.readerInit then
      if env.listThrows then
        { s1 with error := errAccess }
      else
        let devices := env.platformDevices
        let s2 := { s1 with cameras := devices }
        if devices.length > 0 && s2.selectedCamera == "" then
          let backCamera := devices.find? isBackCamera
          let cameraToUse :=
            match backCamera with
            | some d =>
              if d.deviceId == "" then (devices.headD ⟨"", ""⟩).deviceId
              else d.deviceId
            | none => (devices.headD ⟨"", ""⟩).deviceId
          { s2 with selectedCamera := cameraToUse }
        else s2
    else s1
  else
    { s0 with error := errPermission }

/-- The `startScanning` callback (useScanner.tsx lines 106-176), up to the
point where the delayed stream-handle lookup is scheduled.  It first clears
`error`; returns if the reader is missing; with no selected camera and no
known cameras it delegates to `getCameras` and returns; otherwise it stops
an in-progress scan, sets `isScanning`, resets the reader, and starts
`decodeFromVideoDevice`, which acquires a fresh capture stream held by the
reader; if that throws, the error message is set and `isScanning` cleared. -/
def startScanning (s : ScanState) (env : Env) : ScanState :=
  let s0 := { s with error := "" }
  if s0.readerInit then
    if s0.selectedCamera == "" && s0.cameras.length == 0 then
      getCameras s0 env
    else
      let s1 := if s0.isScanning then stopScanning s0 else s0
      let s2 := { s1 with isScanning := true }
      let s3 := resetReader s2
      if env.decodeThrows then
        { s3 with error := errDecodeInit, isScanning := false }
      else
        { s3 with readerStream := some s3.nextGen,
                  activeStreams := s3.nextGen :: s3.activeStreams,
                  nextGen := s3.nextGen + 1 }
  else s0

/-- The `setTimeout` body scheduled by `startScanning` (lines 159-164): it
reads the preview element's `srcObject` — the stream the decoding engine
attached — into `streamRef.current`. -/
def captureStreamTimeout (s : ScanState) : ScanState :=
  { s with streamRef := s.readerStream }

/-- The synchronous part of the `changeCamera` callback (useScanner.tsx
lines 179-193): stop an in-progress scan, then set `selectedCamera` to the
given id unconditionally (no membership check against `cameras`). -/
def changeCamera (deviceId : String) (s : ScanState) : ScanState :=
  let s1 := if s.isScanning then stopScanning s else s
  { s1 with selectedCamera := deviceId }

/-- The `setTimeout` body scheduled by `changeCamera`: restart scanning
when the id is truthy (non-empty). -/
def changeCameraTimeout (deviceId : String) (s : ScanState) (env : Env) : ScanState :=
  if deviceId == "" then s else startScanning s env

/-- The ISBN regex test of `handleDetection` (BarcodeScanner component):
`/^(?:\d{10}|\d{13})$/.test(result)` — exactly 10 decimal digits or
exactly 13 decimal digits. -/
def isbnRegexTest (s : String) : Bool :=
  (s.toList.length == 10 && s.toList.all Char.isDigit) ||
  (s.toList.length == 13 && s.toList.all Char.isDigit)

/-- The `handleDetection` callback of the barcode-scanner component: on a
decode `result`, if the ISBN regex accepts it, forward it to the consumer
(`onDetected`) and stop scanning; otherwise show a transient toast only.
Returns the resulting session state and whether the decode was forwarded. -/
def handleDetection (s : ScanState) (result : String) : ScanState × Bool :=
  if isbnRegexTest result then (stopScanning s, true) else (s, false)

/-- The session state right after the hook mounts: nothing scanning, no
devices, no selection, no error, reader created by the mount effect. -/
def initState : ScanState :=
  { isScanning := false, cameras := [], selectedCamera := "", error := "",
    readerInit := true, readerStream := none, streamRef := none,
    activeStreams := [], nextGen := 0 }

/-- Well-formedness of a session state: the active streams are exactly the
stream held by the decoding engine, stream generations already issued are
below `nextGen`, and a reader stream exists only if the reader does. -/
@[reducible] def WF (s : ScanState) : Prop :=
  s.activeStreams = s.readerStream.toList ∧
  s.readerStream.all (fun g => decide (g < s.nextGen)) = true ∧
  (s.readerInit = false → s.readerStream = none)

/-- A concrete mid-scan state: generation-0 stream acquired, held by the
reader and already captured into the stream handle. -/
def scanningState : ScanState :=
  { initState with
      isScanning := true,
      readerStream := some 0,
      streamRef := some 0,
      activeStreams := [0],
      nextGen := 1 }

/-- A concrete ready state: one known camera, selected, not scanning. -/
def readyState : ScanState :=
  { initState with
      cameras := [⟨"cam1", "Integrated Camera"⟩],
      selectedCamera := "cam1" }

/-- A concrete state whose decoding engine is missing and that carries a
stale error message from an earlier failed attempt. -/
def noReaderState : ScanState :=
  { initState with
      readerInit := false,
      error := "stale error" }

/-- A concrete idle state carrying a stale error message. -/
def staleErrorState : ScanState :=
  { initState with error := "stale error" }

/-- A character is accepted by `Char.isDigit` exactly when it lies between
the characters `0` and `9`. -/
theorem isDigit_char (c : Char) : c.isDigit = true ↔ '0' ≤ c ∧ c ≤ '9' := by
  simp [Char.isDigit, Char.le_def, ge_iff_le]

/-- States on which `stopScanning` acts as the identity: stream handle
already null, not scanning, and (when the reader exists) no reader stream. -/
theorem stopScanning_fixed (t : ScanState) (h1 : t.streamRef = none)
    (h2 : t.isScanning = false) (h3 : t.readerInit = true → t.readerStream = none) :
    stopScanning t = t := by
  rcases t with ⟨sc, cam, sel, err, rInit, rStr, sRef, act, gen⟩
  simp only at h1 h2 h3
  subst h1 h2
  cases rInit with
  | false => simp [stopScanning, resetReader]
  | true => rw [h3 rfl]; simp [stopScanning, resetReader]

/-- After `stopScanning` the stream handle is null, the scanning flag is
down, the reader flag is untouched, and a live reader holds no stream. -/
theorem stopScanning_props (s : ScanState) :
    (stopScanning s).streamRef = none ∧
    (stopScanning s).isScanning = false ∧
    (stopScanning s).readerInit = s.readerInit ∧
    (s.readerInit = true → (stopScanning s).readerStream = none) ∧
    (s.readerInit = false → (stopScanning s).readerStream = s.readerStream) := by
  rcases s with ⟨sc, cam, sel, err, rInit, rStr, sRef, act, gen⟩
  cases sRef <;> cases rInit <;> cases rStr <;> simp [stopScanning, resetReader]

/-- Claim C5: `stopScanning` is idempotent — a second call in a row leaves
the state of the first call unchanged — and is safe in any state: after it
the captured stream handle is released (`streamRef` is null), the decoding
engine holds no stream when it exists (it was reset), and the status is no
longer Scanning. -/
theorem claim_C5 (s : ScanState) :
    stopScanning (stopScanning s) = stopScanning s ∧
    (stopScanning s).streamRef = none ∧
    (stopScanning s).isScanning = false ∧
    (s.readerInit = true → (stopScanning s).readerStream = none) := by
  obtain ⟨h1, h2, h3, h4, h5⟩ := stopScanning_props s
  refine ⟨?_, h1, h2, h4⟩
  apply stopScanning_fixed _ h1 h2
  rw [h3]
  exact h4

/-- Claim C5 witness: the double call agrees with the single call on a
concrete scanning state, which ends up released and not scanning. -/
theorem claim_C5_witness :
    stopScanning (stopScanning scanningState) = stopScanning scanningState ∧
    (stopScanning scanningState).readerStream = none :=
  ⟨(claim_C5 scanningState).1, (claim_C5 scanningState).2.2.2 rfl⟩

/-- Claim C1: the decode-validation predicate accepts a string exactly
when it consists of exactly 10 or exactly 13 decimal digit characters; an
accepted decode is forwarded to the consumer callback (and the session is
stopped, as the component then closes), a rejected decode is not forwarded
and leaves the session state — in particular its scanning status —
unchanged. -/
theorem claim_C1 (s : ScanState) (str : String) :
    (isbnRegexTest str = true ↔
      ((str.toList.length = 10 ∨ str.toList.length = 13) ∧
        ∀ c ∈ str.toList, '0' ≤ c ∧ c ≤ '9')) ∧
    ((handleDetection s str).2 = isbnRegexTest str) ∧
    (isbnRegexTest str = false → handleDetection s str = (s, false)) ∧
    (isbnRegexTest str = true → handleDetection s str = (stopScanning s, true)) := by
  refine ⟨?_, ?_, ?_, ?_⟩
  · simp only [isbnRegexTest, Bool.or_eq_true, Bool.and_eq_true, beq_iff_eq,
      List.all_eq_true, isDigit_char]
    tauto
  · by_cases h : isbnRegexTest str = true <;> simp [handleDetection, h]
  · intro h; simp [handleDetection, h]
  · intro h; simp [handleDetection, h]

/-- Claim C1 witness: the 13-digit decode is forwarded, the malformed
decode is rejected and leaves the state unchanged. -/
theorem claim_C1_witness :
    handleDetection initState "ABC123" = (initState, false) ∧
    handleDetection initState "9780345391803" = (stopScanning initState, true) :=
  ⟨(claim_C1 initState "ABC123").2.2.1 (by decide),
    (claim_C1 initState "9780345391803").2.2.2 (by decide)⟩

/-- Stopping a scan never acquires a stream: the active-stream list can
only shrink. -/
theorem stopScanning_active_le (s : ScanState) :
    (stopScanning s).activeStreams.length ≤ s.activeStreams.length := by
  rcases s with ⟨sc, cam, sel, err, rInit, rStr, sRef, act, gen⟩
  cases sRef <;> cases rInit <;> cases rStr <;> simp [stopScanning, resetReader] <;>
    exact List.length_filter_le _ _

/-- When the decoding engine is missing, `startScanning` only clears the
error message and returns. -/
theorem startScanning_noReader (s : ScanState) (env : Env)
    (h : s.readerInit = false) :
    startScanning s env = { s with error := "" } := by
  rcases s with ⟨sc, cam, sel, err, rInit, rStr, sRef, act, gen⟩
  simp only at h
  subst h
  simp [startScanning]

/-- On a well-formed state, `stopScanning` exactly clears the scanning
flag, the captured handle, the reader stream, and the active streams. -/
theorem stopScanning_eq (s : ScanState) (hs : WF s) :
    stopScanning s = { s with isScanning := false, streamRef := none,
                              readerStream := none, activeStreams := [] } := by
  rcases s with ⟨sc, cam, sel, err, rInit, rStr, sRef, act, gen⟩
  obtain ⟨h1, h2, h3⟩ := hs
  simp only at h1 h2 h3
  subst h1
  cases rStr with
  | none => cases sRef <;> cases rInit <;> simp [stopScanning, resetReader]
  | some g =>
    cases rInit with
    | false => exact absurd (h3 rfl) (by simp)
    | true =>
      cases sRef with
      | none => simp [stopScanning, resetReader]
      | some h =>
        by_cases hgh : g = h <;> simp [stopScanning, resetReader, hgh]

/-- `getCameras` never touches the scanning flag, the reader, the reader
stream, the captured handle, or (when no auto-selection fires because a
camera is already picked) anything but `cameras` and `error`. -/
theorem getCameras_frame (s : ScanState) (env : Env) :
    (getCameras s env).isScanning = s.isScanning ∧
    (getCameras s env).readerStream = s.readerStream ∧
    (getCameras s env).streamRef = s.streamRef ∧
    (getCameras s env).readerInit = s.readerInit := by
  rcases s with ⟨sc, cam, sel, err, rInit, rStr, sRef, act, gen⟩
  rcases env with ⟨perm, devs, lt, dt⟩
  cases perm <;> cases rInit <;> cases lt <;> simp [getCameras] <;> split <;> simp

/-- The result of `getCameras` does not depend on the incoming error
message: the call clears it before anything else. -/
theorem getCameras_error_irrel (s : ScanState) (env : Env) :
    getCameras { s with error := "" } env = getCameras s env := by
  rcases s with ⟨sc, cam, sel, err, rInit, rStr, sRef, act, gen⟩
  rfl

/-- The result of `startScanning` does not depend on the incoming error
message: the call clears it before anything else. -/
theorem startScanning_error_irrel (s : ScanState) (env : Env) :
    startScanning { s with error := "" } env = startScanning s env := by
  rcases s with ⟨sc, cam, sel, err, rInit, rStr, sRef, act, gen⟩
  rfl

/-- The only error messages a `getCameras` call can leave behind. -/
theorem getCameras_error_cases (s : ScanState) (env : Env) :
    (getCameras s env).error = "" ∨ (getCameras s env).error = errPermission ∨
    (getCameras s env).error = errAccess := by
  rcases s with ⟨sc, cam, sel, err, rInit, rStr, sRef, act, gen⟩
  rcases env with ⟨perm, devs, lt, dt⟩
  cases perm <;> cases rInit <;> cases lt <;> simp [getCameras] <;> split <;> simp

/-- The only error messages a `startScanning` call can leave behind. -/
theorem startScanning_error_cases (s : ScanState) (env : Env) :
    (startScanning s env).error = "" ∨ (startScanning s env).error = errPermission ∨
    (startScanning s env).error = errAccess ∨
    (startScanning s env).error = errDecodeInit := by
  rcases hr : s.readerInit with _ | _
  · rw [startScanning_noReader s env hr]
    simp
  · by_cases hmain : (s.selectedCamera == "" && s.cameras.length == 0) = true
    · have henum : startScanning s env = getCameras { s with error := "" } env := by
        rcases s with ⟨sc, cam, sel, err, rInit, rStr, sRef, act, gen⟩
        simp only at hr
        subst hr
        simp only [startScanning]
        simp only at hmain
        simp [hmain]
      rw [henum]
      have := getCameras_error_cases { s with error := "" } env
      tauto
    · rcases s with ⟨sc, cam, sel, err, rInit, rStr, sRef, act, gen⟩
      simp only at hr hmain
      subst hr
      rw [Bool.not_eq_true] at hmain
      cases sc <;> cases sRef <;> cases rStr <;> cases dtc : env.decodeThrows <;>
        simp [startScanning, stopScanning, resetReader, hmain, dtc]

/-- When no camera is selected and none are known, `startScanning` (with a
live reader) is exactly a `getCameras` call. -/
theorem startScanning_enum (s : ScanState) (env : Env)
    (hr : s.readerInit = true) (hsel : s.selectedCamera = "")
    (hcam : s.cameras = []) :
    startScanning s env = getCameras s env := by
  rcases s with ⟨sc, cam, sel, err, rInit, rStr, sRef, act, gen⟩
  simp only at hr hsel hcam
  subst hr hsel hcam
  rw [show startScanning ⟨sc, [], "", err, true, rStr, sRef, act, gen⟩ env =
      getCameras ⟨sc, [], "", "", true, rStr, sRef, act, gen⟩ env from by
    simp [startScanning]]
  exact getCameras_error_irrel ⟨sc, [], "", err, true, rStr, sRef, act, gen⟩ env

/-- On a well-formed state, the throwaway permission stream of
`getCameras` is released within the call: the active streams are
unchanged, and the other stream bookkeeping fields are too. -/
theorem getCameras_active (s : ScanState) (env : Env) (hs : WF s) :
    (getCameras s env).activeStreams = s.activeStreams ∧
    s.nextGen ≤ (getCameras s env).nextGen := by
  rcases s with ⟨sc, cam, sel, err, rInit, rStr, sRef, act, gen⟩
  rcases env with ⟨perm, devs, lt, dt⟩
  obtain ⟨h1, h2, h3⟩ := hs
  simp only at h1 h2 h3
  subst h1
  cases rStr with
  | none =>
    cases perm <;> cases rInit <;> cases lt <;> simp [getCameras] <;> split <;> simp
  | some g =>
    simp only [Option.all_some, decide_eq_true_eq] at h2
    have hne : g ≠ gen := Nat.ne_of_lt h2
    cases perm <;> cases rInit <;> cases lt <;> simp [getCameras, hne] <;> split <;> simp

/-- `getCameras` preserves well-formedness of the session state. -/
theorem getCameras_WF (s : ScanState) (env : Env) (hs : WF s) :
    WF (getCameras s env) := by
  obtain ⟨ha, hg⟩ := getCameras_active s env hs
  obtain ⟨hsc, hrs, hsr, hri⟩ := getCameras_frame s env
  obtain ⟨h1, h2, h3⟩ := hs
  refine ⟨?_, ?_, ?_⟩
  · rw [ha, hrs, h1]
  · rw [hrs]
    cases hr : s.readerStream with
    | none => simp
    | some g =>
      rw [hr] at h2
      simp only [Option.all_some, decide_eq_true_eq] at h2 ⊢
      omega
  · rw [hri, hrs]
    exact h3

/-- The main path of `startScanning` (live reader, a camera selected or
some known): it stops any in-progress scan, resets the reader, and either
fails (message set, scanning flag down, no stream acquired) or acquires
exactly one fresh stream held by the reader. -/
theorem startScanning_spec (s : ScanState) (env : Env) (hs : WF s)
    (hr : s.readerInit = true)
    (hmain : (s.selectedCamera == "" && s.cameras.length == 0) = false) :
    startScanning s env =
      if env.decodeThrows then
        { s with error := errDecodeInit, isScanning := false,
                 streamRef := if s.isScanning then none else s.streamRef,
                 readerStream := none, activeStreams := [] }
      else
        { s with error := "", isScanning := true,
                 streamRef := if s.isScanning then none else s.streamRef,
                 readerStream := some s.nextGen,
                 activeStreams := [s.nextGen], nextGen := s.nextGen + 1 } := by
  have hstop := stopScanning_eq { s with error := "" }
    (by obtain ⟨h1, h2, h3⟩ := hs; exact ⟨h1, h2, h3⟩)
  rcases s with ⟨sc, cam, sel, err, rInit, rStr, sRef, act, gen⟩
  obtain ⟨h1, h2, h3⟩ := hs
  simp only at h1 h2 h3 hr hmain
  subst hr h1
  cases sc with
  | true =>
    simp only [startScanning, hmain, Bool.false_eq_true, if_false, if_true]
    rw [hstop]
    cases rStr <;> cases dtc : env.decodeThrows <;> simp [resetReader, dtc]
  | false =>
    simp only [startScanning, hmain, Bool.false_eq_true, if_false, if_true]
    cases rStr with
    | none => cases dtc : env.decodeThrows <;> simp [resetReader, dtc]
    | some g => cases dtc : env.decodeThrows <;> simp [resetReader, dtc]

/-- Claim C7: if the platform denies the camera permission during device
enumeration, the session's error message becomes the user-facing denial
message and the device list is untouched — in particular it stays empty
when it was empty. -/
theorem claim_C7 (s : ScanState) (env : Env) (h : env.permission = false) :
    (getCameras s env).error = errPermission ∧
    (getCameras s env).cameras = s.cameras ∧
    (s.cameras = [] → (getCameras s env).cameras = []) := by
  rcases s with ⟨sc, cam, sel, err, rInit, rStr, sRef, act, gen⟩
  rcases env with ⟨perm, devs, lt, dt⟩
  simp only at h
  subst h
  exact ⟨rfl, rfl, fun hc => hc⟩

/-- Claim C7 witness: a denied enumeration on the fresh session leaves no
devices and the denial message. -/
theorem claim_C7_witness :
    (getCameras initState ⟨false, [⟨"a", "Cam"⟩], false, false⟩).error = errPermission ∧
    (getCameras initState ⟨false, [⟨"a", "Cam"⟩], false, false⟩).cameras = [] :=
  ⟨(claim_C7 initState ⟨false, [⟨"a", "Cam"⟩], false, false⟩ rfl).1,
    (claim_C7 initState ⟨false, [⟨"a", "Cam"⟩], false, false⟩ rfl).2.2 rfl⟩

/-- Claim C10 (implicit): `getCameras` and `startScanning` clear the error
message before anything else, so their outcome never depends on a stale
error message of a previous attempt, and the error they leave behind is
one of the messages of the current call (or empty). -/
theorem claim_C10 (s : ScanState) (env : Env) :
    getCameras s env = getCameras { s with error := "" } env ∧
    startScanning s env = startScanning { s with error := "" } env ∧
    ((getCameras s env).error = "" ∨ (getCameras s env).error = errPermission ∨
      (getCameras s env).error = errAccess) ∧
    ((startScanning s env).error = "" ∨ (startScanning s env).error = errPermission ∨
      (startScanning s env).error = errAccess ∨
      (startScanning s env).error = errDecodeInit) :=
  ⟨(getCameras_error_irrel s env).symm, (startScanning_error_irrel s env).symm,
    getCameras_error_cases s env, startScanning_error_cases s env⟩

/-- Claim C6: with a live reader, granted permission and a non-empty
enumeration while no camera is selected, auto-selection picks the first
device whose label contains (case-insensitively) one of the back-camera
keywords — provided its id is non-empty, the JavaScript falsy fallback —
and otherwise the first enumerated device.  Concretely, [Front, Back
Camera] selects the Back Camera device and [Front, USB Cam] the Front
device. -/
theorem claim_C6 (s : ScanState) (env : Env)
    (hp : env.permission = true) (hl : env.listThrows = false)
    (hr : s.readerInit = true) (hsel : s.selectedCamera = "")
    (hne : env.platformDevices ≠ []) :
    (∀ d, env.platformDevices.find? isBackCamera = some d → d.deviceId ≠ "" →
      (getCameras s env).selectedCamera = d.deviceId) ∧
    (env.platformDevices.find? isBackCamera = none →
      (getCameras s env).selectedCamera = (env.platformDevices.headD ⟨"", ""⟩).deviceId) ∧
    (getCameras initState
      ⟨true, [⟨"idA", "Front"⟩, ⟨"idB", "Back Camera"⟩], false, false⟩).selectedCamera = "idB" ∧
    (getCameras initState
      ⟨true, [⟨"idA", "Front"⟩, ⟨"idC", "USB Cam"⟩], false, false⟩).selectedCamera = "idA" := by
  rcases s with ⟨sc, cam, sel, err, rInit, rStr, sRef, act, gen⟩
  rcases env with ⟨perm, devs, lt, dt⟩
  simp only at hp hl hr hsel hne
  subst hp hl hr hsel
  have hlen : 0 < devs.length := List.length_pos.mpr hne
  refine ⟨?_, ?_, by decide, by decide⟩
  · intro d hd hid
    simp [getCameras, hlen, hd, hid]
  · intro hd
    simp [getCameras, hlen, hd]

/-- Claim C6 witness: the concrete back-camera pick, through the general
auto-selection statement. -/
theorem claim_C6_witness :
    (getCameras initState
      ⟨true, [⟨"idA", "Front"⟩, ⟨"idB", "Back Camera"⟩], false, false⟩).selectedCamera = "idB" :=
  (claim_C6 initState ⟨true, [⟨"idA", "Front"⟩, ⟨"idB", "Back Camera"⟩], false, false⟩
      rfl rfl rfl rfl (by decide)).1
    ⟨"idB", "Back Camera"⟩ (by decide) (by decide)

/-- Claim C4 counterexample: the selected-device invariant fails on a
reachable state.  Enumerating [CamA] auto-selects "a"; a refresh that
yields [CamB] keeps "a" selected although it is no longer in the device
list — the stale id is not cleared. -/
theorem claim_C4_counterexample :
    (getCameras (getCameras initState ⟨true, [⟨"a", "CamA"⟩], false, false⟩)
        ⟨true, [⟨"b", "CamB"⟩], false, false⟩).selectedCamera = "a" ∧
    (getCameras (getCameras initState ⟨true, [⟨"a", "CamA"⟩], false, false⟩)
        ⟨true, [⟨"b", "CamB"⟩], false, false⟩).cameras = [⟨"b", "CamB"⟩] ∧
    (getCameras (getCameras initState ⟨true, [⟨"a", "CamA"⟩], false, false⟩)
        ⟨true, [⟨"b", "CamB"⟩], false, false⟩).selectedCamera ≠ "" ∧
    (getCameras (getCameras initState ⟨true, [⟨"a", "CamA"⟩], false, false⟩)
        ⟨true, [⟨"b", "CamB"⟩], false, false⟩).selectedCamera ∉
      ((getCameras (getCameras initState ⟨true, [⟨"a", "CamA"⟩], false, false⟩)
        ⟨true, [⟨"b", "CamB"⟩], false, false⟩).cameras.map MediaDeviceInfo.deviceId) := by
  decide

/-- Claim C4 as amended: the membership invariant holds only at the moment
auto-selection fires — after a successful enumeration with devices found
and no prior selection, the selected id is one of the enumerated ids; a
later refresh does not clear a selected id that disappeared, and
`selectDevice` performs no membership check. -/
theorem claim_C4_amended (s : ScanState) (env : Env)
    (hp : env.permission = true) (hl : env.listThrows = false)
    (hr : s.readerInit = true) (hsel : s.selectedCamera = "")
    (hne : env.platformDevices ≠ []) :
    (getCameras s env).selectedCamera ∈
      ((getCameras s env).cameras.map MediaDeviceInfo.deviceId) ∧
    (getCameras s env).cameras = env.platformDevices := by
  rcases s with ⟨sc, cam, sel, err, rInit, rStr, sRef, act, gen⟩
  rcases env with ⟨perm, devs, lt, dt⟩
  simp only at hp hl hr hsel hne
  subst hp hl hr hsel
  have hlen : 0 < devs.length := List.length_pos.mpr hne
  rcases hdevs : devs with _ | ⟨a, l⟩
  · exact absurd hdevs hne
  · subst hdevs
    constructor
    · rcases hd : (a :: l).find? isBackCamera with _ | d
      · simp [getCameras, hlen, hd]
      · by_cases hid : d.deviceId = ""
        · simp [getCameras, hlen, hd, hid]
        · have hmem : d ∈ a :: l := List.mem_of_find?_eq_some hd
          rw [List.mem_cons] at hmem
          simp only [getCameras, hlen, hd, hid]
          simp [hid]
          rcases hmem with rfl | hmem
          · left
            rfl
          · right
            exact ⟨d, hmem, rfl⟩
    · simp [getCameras, hlen]

/-- Claim C4 witness: after the first enumeration of the counterexample
run, the auto-selected id is indeed among the enumerated ids. -/
theorem claim_C4_witness :
    (getCameras initState ⟨true, [⟨"a", "CamA"⟩], false, false⟩).selectedCamera ∈
      ((getCameras initState ⟨true, [⟨"a", "CamA"⟩], false, false⟩).cameras.map
        MediaDeviceInfo.deviceId) :=
  (claim_C4_amended initState ⟨true, [⟨"a", "CamA"⟩], false, false⟩
    rfl rfl rfl rfl (by decide)).1

/-- Claim C3 counterexample: `changeCamera` with an id that is not in the
device list is not a no-op — on a ready state with camera "cam1" it
changes the selected device to the unknown id "x". -/
theorem claim_C3_counterexample :
    changeCamera "x" readyState ≠ readyState ∧
    "x" ∉ readyState.cameras.map MediaDeviceInfo.deviceId ∧
    (changeCamera "x" readyState).selectedCamera = "x" := by
  decide

/-- Claim C3 as amended: `changeCamera` performs no membership check and
is total (no crash): it unconditionally sets the selected device to the
given id, first stopping an in-progress scan, and acquires no stream
synchronously (the restart is only scheduled). -/
theorem claim_C3_amended (x : String) (s : ScanState) :
    (changeCamera x s).selectedCamera = x ∧
    (s.isScanning = false → changeCamera x s = { s with selectedCamera := x }) ∧
    (s.isScanning = true →
      changeCamera x s = { stopScanning s with selectedCamera := x }) ∧
    (changeCamera x s).activeStreams.length ≤ s.activeStreams.length := by
  refine ⟨?_, ?_, ?_, ?_⟩
  · rcases s with ⟨sc, cam, sel, err, rInit, rStr, sRef, act, gen⟩
    cases sc <;> simp [changeCamera]
  · intro h
    rcases s with ⟨sc, cam, sel, err, rInit, rStr, sRef, act, gen⟩
    simp only at h
    subst h
    simp [changeCamera]
  · intro h
    rcases s with ⟨sc, cam, sel, err, rInit, rStr, sRef, act, gen⟩
    simp only at h
    subst h
    simp [changeCamera]
  · rcases hgoal : s.isScanning with _ | _
    · rcases s with ⟨sc, cam, sel, err, rInit, rStr, sRef, act, gen⟩
      simp only at hgoal
      subst hgoal
      simp [changeCamera]
    · have : (changeCamera x s).activeStreams = (stopScanning s).activeStreams := by
        rcases s with ⟨sc, cam, sel, err, rInit, rStr, sRef, act, gen⟩
        simp only at hgoal
        subst hgoal
        simp [changeCamera]
      rw [this]
      exact stopScanning_active_le s

/-- Claim C3 witness: on the non-scanning ready state the whole effect of
`changeCamera` is the selected-device change. -/
theorem claim_C3_witness :
    changeCamera "x" readyState = { readyState with selectedCamera := "x" } :=
  (claim_C3_amended "x" readyState).2.1 rfl

/-- Claim C9 counterexample: with the decoding engine unavailable,
`startScanning` stores no NotInitialized message in the session state — it
clears the stale error to the empty string and changes nothing else (the
failure is only logged to the console). -/
theorem claim_C9_counterexample :
    noReaderState.error = "stale error" ∧
    startScanning noReaderState ⟨true, [⟨"a", "Cam"⟩], false, false⟩ =
      { noReaderState with error := "" } ∧
    (startScanning noReaderState ⟨true, [⟨"a", "Cam"⟩], false, false⟩).error = "" := by
  decide

/-- Claim C9 as amended: when the decoding engine is unavailable,
`startScanning` returns without scanning — the status does not become
Scanning and no stream is acquired — but the failure is not captured in
the session state: the error message is cleared to empty, not set to a
NotInitialized message. -/
theorem claim_C9_amended (s : ScanState) (env : Env) (h : s.readerInit = false) :
    startScanning s env = { s with error := "" } ∧
    (startScanning s env).isScanning = s.isScanning ∧
    (startScanning s env).activeStreams = s.activeStreams ∧
    (startScanning s env).error = "" := by
  have hh := startScanning_noReader s env h
  rw [hh]
  exact ⟨rfl, rfl, rfl, rfl⟩

/-- Claim C9 witness: the engine-unavailable call on the concrete state
only clears the error message. -/
theorem claim_C9_witness :
    startScanning noReaderState ⟨true, [], false, false⟩ =
      { noReaderState with error := "" } :=
  (claim_C9_amended noReaderState ⟨true, [], false, false⟩ rfl).1

/-- Claim C8 counterexample: in a state with no device selected and no
devices known but the decoding engine unavailable, `startScanning` does
not trigger device enumeration: an enumeration would have recorded the
permission denial, but the call leaves no trace of one. -/
theorem claim_C8_counterexample :
    noReaderState.selectedCamera = "" ∧ noReaderState.cameras = [] ∧
    startScanning noReaderState ⟨false, [], false, false⟩ ≠
      getCameras noReaderState ⟨false, [], false, false⟩ ∧
    (startScanning noReaderState ⟨false, [], false, false⟩).error = "" ∧
    (getCameras noReaderState ⟨false, [], false, false⟩).error = errPermission := by
  decide

/-- Claim C8 as amended: in a state with no device selected and no devices
known, `startScanning` — provided the decoding engine is initialized,
which its missing-engine check tests first — is exactly a device
enumeration call and returns without scanning: the scanning status and the
reader stream are untouched (unconditionally). -/
theorem claim_C8_amended (s : ScanState) (env : Env)
    (hsel : s.selectedCamera = "") (hcam : s.cameras = []) :
    (s.readerInit = true → startScanning s env = getCameras s env) ∧
    (startScanning s env).isScanning = s.isScanning ∧
    (startScanning s env).readerStream = s.readerStream := by
  refine ⟨fun hr => startScanning_enum s env hr hsel hcam, ?_, ?_⟩
  · rcases hr : s.readerInit with _ | _
    · rw [startScanning_noReader s env hr]
    · rw [startScanning_enum s env hr hsel hcam]
      exact (getCameras_frame s env).1
  · rcases hr : s.readerInit with _ | _
    · rw [startScanning_noReader s env hr]
    · rw [startScanning_enum s env hr hsel hcam]
      exact (getCameras_frame s env).2.1

/-- Claim C8 witness: on the fresh-but-stale-error state the call is the
enumeration call and does not start scanning. -/
theorem claim_C8_witness :
    startScanning staleErrorState ⟨true, [⟨"a", "Cam"⟩], false, false⟩ =
      getCameras staleErrorState ⟨true, [⟨"a", "Cam"⟩], false, false⟩ ∧
    (startScanning staleErrorState ⟨true, [⟨"a", "Cam"⟩], false, false⟩).isScanning =
      staleErrorState.isScanning :=
  ⟨(claim_C8_amended staleErrorState ⟨true, [⟨"a", "Cam"⟩], false, false⟩ rfl rfl).1 rfl,
    (claim_C8_amended staleErrorState ⟨true, [⟨"a", "Cam"⟩], false, false⟩ rfl rfl).2.1⟩

/-- A well-formed state holds at most one active capture stream: the
active streams are exactly the (at most one) stream held by the reader. -/
theorem WF_active_length (t : ScanState) (ht : WF t) :
    t.activeStreams.length ≤ 1 := by
  obtain ⟨h1, h2, h3⟩ := ht
  rw [h1]
  cases t.readerStream <;> simp

/-- Every `startScanning` call preserves well-formedness of the session
state. -/
theorem startScanning_WF (s : ScanState) (env : Env) (hs : WF s) :
    WF (startScanning s env) := by
  rcases hr : s.readerInit with _ | _
  · rw [startScanning_noReader s env hr]
    obtain ⟨h1, h2, h3⟩ := hs
    exact ⟨h1, h2, h3⟩
  · by_cases hm : (s.selectedCamera == "" && s.cameras.length == 0) = true
    · rw [Bool.and_eq_true, beq_iff_eq, beq_iff_eq, List.length_eq_zero] at hm
      rw [startScanning_enum s env hr hm.1 hm.2]
      exact getCameras_WF s env hs
    · rw [Bool.not_eq_true] at hm
      rw [startScanning_spec s env hs hr hm]
      cases hdt : env.decodeThrows <;> simp only [Bool.false_eq_true, if_false, if_true] <;>
        exact ⟨by simp, by simp, by simp [hr]⟩

/-- Claim C2: starting from a well-formed session state, `startScanning`
keeps the state well-formed, so at every point at most one capture stream
is active; whenever a scan is in progress and the call takes its main path
(live reader, camera situation known), the previously held stream is
stopped — it is not among the active streams afterwards; and two
`startScanning` calls in immediate succession (with a selected camera and
a decode start that does not throw) leave exactly one active stream. -/
theorem claim_C2 (s : ScanState) (env : Env) (hs : WF s) :
    WF (startScanning s env) ∧
    (startScanning s env).activeStreams.length ≤ 1 ∧
    (∀ g, s.isScanning = true → s.readerStream = some g → s.readerInit = true →
      (s.selectedCamera == "" && s.cameras.length == 0) = false →
      g ∉ (startScanning s env).activeStreams) ∧
    (s.readerInit = true → s.selectedCamera ≠ "" → env.decodeThrows = false →
      (startScanning (startScanning s env) env).activeStreams.length = 1) := by
  have hwf := startScanning_WF s env hs
  refine ⟨hwf, WF_active_length _ hwf, ?_, ?_⟩
  · intro g hscan hrs hr hm
    have hlt : g < s.nextGen := by
      obtain ⟨h1, h2, h3⟩ := hs
      rw [hrs] at h2
      simpa using h2
    rw [startScanning_spec s env hs hr hm]
    cases hdt : env.decodeThrows <;> simp only [Bool.false_eq_true, if_false, if_true] <;>
      simp <;> omega
  · intro hr hsel hdt
    have h0 : (s.selectedCamera == "") = false := beq_eq_false_iff_ne.mpr hsel
    have hm : (s.selectedCamera == "" && s.cameras.length == 0) = false := by
      simp [h0]
    have hspec := startScanning_spec s env hs hr hm
    rw [hdt] at hspec
    simp only [Bool.false_eq_true, if_false] at hspec
    have hr2 : (startScanning s env).readerInit = true := by
      rw [hspec]
      exact hr
    have hm2 : ((startScanning s env).selectedCamera == ""
        && (startScanning s env).cameras.length == 0) = false := by
      rw [hspec]
      exact hm
    rw [startScanning_spec (startScanning s env) env hwf hr2 hm2]
    rw [hdt]
    simp

/-- Claim C2 witness: on the concrete ready state, a start keeps the state
well-formed and an immediate second start leaves exactly one active
stream. -/
theorem claim_C2_witness :
    WF (startScanning readyState ⟨true, [], false, false⟩) ∧
    (startScanning (startScanning readyState ⟨true, [], false, false⟩)
      ⟨true, [], false, false⟩).activeStreams.length = 1 :=
  ⟨(claim_C2 readyState ⟨true, [], false, false⟩ (by decide)).1,
    (claim_C2 readyState ⟨true, [], false, false⟩ (by decide)).2.2.2 rfl (by decide) rfl⟩

end ScanSession
